import Mathlib

/-!
Verification of the merge-and-resample engine of `scripts/mapOutputs2D.py`
(class `mapOutputs`).  The Python code is shallowly embedded over exact
rationals: every numeric array becomes a `List ℚ` (or `List ℤ` for basin
labels), every 2-D array a `List (List ℚ)` of rows, and the instance
attributes of a `mapOutputs` object become a record.  Python attribute
semantics ("never assigned" versus "assigned `None`" versus "holding a
value") are encoded with nested options where the distinction matters.

External collaborators are parameters: the cKDTree `query` call is a
function argument returning (distances, indices) per query point, and the
native `filllabel` kernel is a function argument returning the filled
elevation and the integer basin labels.  Indexing is modelled totally with
`getD`; the runs studied here keep every index in range.
-/

/-- Python-level run-time errors relevant to the embedded methods. -/
inductive PyErr
  | attributeError
  | typeError
  deriving DecidableEq, Repr

/-- `getData` merge loop (lines 237-301): partition `k = 0` starts the
accumulator, every later partition is appended in ascending `k`.  Used for
the coordinate columns and for every scalar field alike. -/
def mergeField {α : Type} (parts : List (List α)) : List α :=
  match parts with
  | [] => []
  | p :: ps => ps.foldl (fun acc q => acc ++ q) p

/-- Mesh-projection epsilon substitution, line 316:
`distances[distances == 0] = 1.0e-6` (element-wise). -/
def meshEpsSubst (d : List (List ℚ)) : List (List ℚ) :=
  d.map (fun row => row.map (fun x => if x = 0 then 1 / 1000000 else x))

/-- Inverse-distance weights, lines 318 and 531: `1.0 / distances ** 2`. -/
def weightsOf (d : List (List ℚ)) : List (List ℚ) :=
  d.map (fun row => row.map (fun x => 1 / x ^ 2))

/-- `np.where(dists[:, 0] == 0)[0]` (lines 319, 529, 606): the row indices
whose first (smallest) distance is exactly zero. -/
def zeroHeadRows : List (List ℚ) → ℕ → List ℕ
  | [], _ => []
  | row :: rest, i =>
      (if row.headD 1 = 0 then [i] else []) ++ zeroHeadRows rest (i + 1)

/-- Grid-resampling epsilon substitution, lines 529-530 and 606-607:
`oIDs = np.where(dists[:, 0] == 0)[0]; dists[oIDs, :] = 0.001` — every row
whose first distance is zero is wholly overwritten with `1e-3`. -/
def gridEpsSubst (d : List (List ℚ)) : List (List ℚ) :=
  d.map (fun row => if row.headD 1 = 0 then row.map (fun _ => 1 / 1000) else row)

/-- `np.sum(weights * vals[indices], axis=1)` (row-wise weighted dot with
the gathered source values). -/
def idwDot (w : List (List ℚ)) (inds : List (List ℕ)) (vals : List ℚ) : List ℚ :=
  List.zipWith (fun wr ir => (List.zipWith (fun a j => a * vals.getD j 0) wr ir).sum) w inds

/-- Zero-distance override, lines 400-411 / 545-553 / 625-636:
`res[onIDs] = vals[indices[onIDs, 0]]`. -/
def overrideAt (r : List ℚ) (onIDs : List ℕ) (inds : List (List ℕ)) (vals : List ℚ) :
    List ℚ :=
  onIDs.foldl (fun acc i => acc.set i (vals.getD ((inds.getD i []).headD 0) 0)) r

/-- `denum[oIDs] = 0.0` (lines 533, 610) and kindred indexed zeroing. -/
def zeroAt (xs : List ℚ) (is : List ℕ) : List ℚ :=
  is.foldl (fun a i => a.set i 0) xs

/-- One field of the `getData` mesh projection, lines 314-320 together with
322-341 and 400-411, exactly in source order: substitute `1e-6` for zero
distances FIRST (line 316), only then read off `onIDs` from the already
substituted distances (line 319), weight, normalise, and finally run the
exact-match override over that `onIDs` set. -/
def getDataField (dists : List (List ℚ)) (inds : List (List ℕ)) (vals : List ℚ) :
    List ℚ :=
  let d := meshEpsSubst dists
  let w := weightsOf d
  let onIDs := zeroHeadRows d 0
  let sumwght := w.map List.sum
  let r := List.zipWith (fun a b => a / b) (idwDot w inds vals) sumwght
  overrideAt r onIDs inds vals

/-- The same pipeline with `onIDs` taken from the raw distances, i.e. what
the override block of lines 400-411 is written to achieve (and what the
sibling grid builders do at lines 529-530). -/
def getDataFieldIntended (dists : List (List ℚ)) (inds : List (List ℕ)) (vals : List ℚ) :
    List ℚ :=
  let onIDs := zeroHeadRows dists 0
  let d := meshEpsSubst dists
  let w := weightsOf d
  let sumwght := w.map List.sum
  let r := List.zipWith (fun a b => a / b) (idwDot w inds vals) sumwght
  overrideAt r onIDs inds vals

/-- Python `int(...)` truncation toward zero. -/
def pyInt (q : ℚ) : ℤ :=
  if q < 0 then ⌈q⌉ else ⌊q⌋

/-- `buildLonLatMesh` column count (lines 515, 520):
`nx = int(span_lon / res) + 1`. -/
def lonlatNx (res : ℚ) (box : Option (ℚ × ℚ × ℚ × ℚ)) : ℤ :=
  match box with
  | none => pyInt (360 / res) + 1
  | some (x0, _, x1, _) => pyInt ((x1 - x0) / res) + 1

/-- `buildLonLatMesh` row count (lines 516, 521):
`ny = int(span_lat / res) + 1`. -/
def lonlatNy (res : ℚ) (box : Option (ℚ × ℚ × ℚ × ℚ)) : ℤ :=
  match box with
  | none => pyInt (180 / res) + 1
  | some (_, y0, _, y1) => pyInt ((y1 - y0) / res) + 1

/-- `np.linspace a b n`: `n` evenly spaced samples with both endpoints. -/
def linspaceQ (a b : ℚ) (n : ℕ) : List ℚ :=
  if n = 0 then []
  else if n = 1 then [a]
  else (List.range n).map (fun i => a + i * (b - a) / (n - 1))

/-- `np.arange a b st` for a positive step: `a, a+st, ...` strictly below `b`. -/
def arangeQ (a b st : ℚ) : List ℚ :=
  if st ≤ 0 then []
  else (List.range (⌈(b - a) / st⌉).toNat).map (fun i => a + i * st)

/-- `np.meshgrid(lon, lat)` followed by flattening and `dstack` (lines
525-526, 602-603): row-major query points, latitude as the outer axis. -/
def meshFlattenQ (lon lat : List ℚ) : List (ℚ × ℚ) :=
  (lat.map (fun y => lon.map (fun x => (x, y)))).flatten

/-- Longitude step of `_xyz2lonlat`, lines 222 and 224-227: wrap into
[-180, 180) with `np.mod`, then shift the branch (`>= 0` entries by `-180`,
`< 0` entries by `+180`). -/
def normLon (lon : ℚ) : ℚ :=
  let m := lon + 180 - 360 * ⌊(lon + 180) / 360⌋ - 180
  if m < 0 then m + 180 else m - 180

/-- Latitude step of `_xyz2lonlat`, line 223: wrap into [-90, 90). -/
def normLat (lat : ℚ) : ℚ :=
  lat + 90 - 180 * ⌊(lat + 90) / 180⌋ - 90

/-- `mergeField` is plain concatenation in partition order. -/
theorem mergeField_eq_flatten {α : Type} (parts : List (List α)) :
    mergeField parts = parts.flatten := by
  have key : ∀ (ps : List (List α)) (acc : List α),
      ps.foldl (fun a q => a ++ q) acc = acc ++ ps.flatten := by
    intro ps
    induction ps with
    | nil => intro acc; simp
    | cons p ps ih => intro acc; simp [ih, List.append_assoc]
  cases parts with
  | nil => rfl
  | cons p ps => simp [mergeField, key]

/-- Division remainder used by both normalisation steps stays in `[0, b)`. -/
theorem npMod_bounds (a b : ℚ) (hb : 0 < b) :
    0 ≤ a - b * ⌊a / b⌋ ∧ a - b * ⌊a / b⌋ < b := by
  have hfr : a - b * ⌊a / b⌋ = b * Int.fract (a / b) := by
    rw [Int.fract]
    field_simp
  constructor
  · rw [hfr]
    exact mul_nonneg hb.le (Int.fract_nonneg _)
  · rw [hfr]
    calc b * Int.fract (a / b) < b * 1 := by
          exact (mul_lt_mul_left hb).mpr (Int.fract_lt_one _)
      _ = b := mul_one b

/-- C9: every longitude produced by the `_xyz2lonlat` normalisation (mod
wrap plus the sign-branch correction of lines 224-227) lies in
[-180, 180), and every latitude in [-90, 90).  The trigonometric front end
(`arctan2`, `arcsin`, `degrees`) feeds arbitrary degree values into these
steps; the property holds for every rational input. -/
theorem C9_coordinate_normalization_range (lon lat : ℚ) :
    -180 ≤ normLon lon ∧ normLon lon < 180 ∧
    -90 ≤ normLat lat ∧ normLat lat < 90 := by
  obtain ⟨h0, h1⟩ := npMod_bounds (lon + 180) 360 (by norm_num)
  obtain ⟨g0, g1⟩ := npMod_bounds (lat + 90) 180 (by norm_num)
  unfold normLon normLat
  refine ⟨?_, ?_, by linarith, by linarith⟩
  · dsimp only
    split <;> linarith
  · dsimp only
    split <;> linarith

/-- C7: merging N partitions concatenates every array in ascending
partition index, the global point count is the sum of the per-partition
counts, and in particular elevation parts `[1,2,3]` and `[4,5]` over
partitions of 3 and 2 points merge to the 5-point field `[1,2,3,4,5]`. -/
theorem C7_merge_order_count (fieldParts : List (List ℚ))
    (coordParts : List (List (ℚ × ℚ × ℚ))) :
    mergeField fieldParts = fieldParts.flatten ∧
    (mergeField coordParts).length = (coordParts.map List.length).sum ∧
    mergeField [[(1 : ℚ), 2, 3], [4, 5]] = [1, 2, 3, 4, 5] ∧
    (mergeField [[((0 : ℚ), (0 : ℚ), (0 : ℚ)), (1, 0, 0), (2, 0, 0)],
        [(3, 0, 0), (4, 0, 0)]]).length = 5 := by
  refine ⟨mergeField_eq_flatten _, ?_, ?_, ?_⟩
  · rw [mergeField_eq_flatten]
    induction coordParts with
    | nil => rfl
    | cons p ps ih => simp [ih]
  · rw [mergeField_eq_flatten]; rfl
  · rw [mergeField_eq_flatten]; rfl

/-- C4 counterexample: the merge loop of `getData` contains no length
validation at all.  With partition 0 holding 2 coordinates but 3 elevation
values, the merge still goes through and yields the concatenated global
arrays — it does not fail. -/
theorem C4_counterexample :
    mergeField [[(1 : ℚ), 2, 3], [4, 5]] = [1, 2, 3, 4, 5] ∧
    (mergeField [[((0 : ℚ), (0 : ℚ), (0 : ℚ)), (1, 0, 0)], [(2, 0, 0), (3, 0, 0)]]).length
      = 4 ∧
    ([[(1 : ℚ), 2, 3], [4, 5]].getD 0 []).length ≠
      ([[((0 : ℚ), (0 : ℚ), (0 : ℚ)), (1, 0, 0)], [(2, 0, 0), (3, 0, 0)]].getD 0 []).length := by
  refine ⟨by rw [mergeField_eq_flatten]; rfl, by rw [mergeField_eq_flatten]; rfl, by decide⟩

/-- C4 amended: the merge performs no per-partition length check.  Even
when some partition's field array length differs from its coordinate
count, merging proceeds and produces the plain concatenation of the
per-partition arrays (misalignment can only surface later, during
interpolation indexing). -/
theorem C4_amended_merge_never_fails (coordParts : List (List (ℚ × ℚ × ℚ)))
    (fieldParts : List (List ℚ)) (k : ℕ)
    (hmis : (coordParts.getD k []).length ≠ (fieldParts.getD k []).length) :
    mergeField fieldParts = fieldParts.flatten ∧
    (mergeField fieldParts).length = (fieldParts.map List.length).sum ∧
    mergeField coordParts = coordParts.flatten := by
  refine ⟨mergeField_eq_flatten _, ?_, mergeField_eq_flatten _⟩
  rw [mergeField_eq_flatten]
  induction fieldParts with
  | nil => rfl
  | cons p ps ih => simp [ih]

/-- Witness for `C4_amended_merge_never_fails` at a concrete misaligned
input (partition 0: 2 coordinates, 3 field values). -/
theorem C4_amended_merge_never_fails_witness :
    mergeField [[(1 : ℚ), 2, 3], [4, 5]] = [[(1 : ℚ), 2, 3], [4, 5]].flatten ∧
    (mergeField [[(1 : ℚ), 2, 3], [4, 5]]).length
      = ([[(1 : ℚ), 2, 3], [4, 5]].map List.length).sum ∧
    mergeField [[((0 : ℚ), (0 : ℚ), (0 : ℚ)), (1, 0, 0)], [(2, 0, 0), (3, 0, 0)]]
      = [[((0 : ℚ), (0 : ℚ), (0 : ℚ)), (1, 0, 0)], [(2, 0, 0), (3, 0, 0)]].flatten :=
  C4_amended_merge_never_fails
    [[((0 : ℚ), (0 : ℚ), (0 : ℚ)), (1, 0, 0)], [(2, 0, 0), (3, 0, 0)]]
    [[(1 : ℚ), 2, 3], [4, 5]] 0 (by decide)

/-- C1: in `getData` the exact-match override is dead code.  Line 316
replaces every zero distance by `1e-6` BEFORE line 319 computes
`onIDs = np.where(distances[:, 0] == 0)[0]`, so `onIDs` is always empty
and lines 400-411 never fire.  At a reference vertex coinciding with
source point 0 (source points at x = 0, 3, 4 on a line, vertex at x = 0,
giving distances `[0, 3, 4]`, indices `[0, 1, 2]`) with elevations
`[10, 20, 30]`, the code returns the epsilon-weighted blend
`(144·10^13 + 590) / (144·10^12 + 25)` instead of the exact value `10`
that the spec (and the override block itself) promise; reading `onIDs`
from the raw distances, as the grid builders do, would return `10`. -/
theorem C1_exact_passthrough_code_bug :
    zeroHeadRows (meshEpsSubst [[(0 : ℚ), 3, 4]]) 0 = [] ∧
    zeroHeadRows [[(0 : ℚ), 3, 4]] 0 = [0] ∧
    getDataField [[(0 : ℚ), 3, 4]] [[0, 1, 2]] [10, 20, 30]
      = [(144 * 10 ^ 13 + 590) / (144 * 10 ^ 12 + 25)] ∧
    getDataField [[(0 : ℚ), 3, 4]] [[0, 1, 2]] [10, 20, 30] ≠ [10] ∧
    getDataFieldIntended [[(0 : ℚ), 3, 4]] [[0, 1, 2]] [10, 20, 30] = [10] := by
  refine ⟨?_, ?_, ?_, ?_, ?_⟩ <;>
    norm_num [getDataField, getDataFieldIntended, meshEpsSubst, weightsOf,
      zeroHeadRows, idwDot, overrideAt]

/-- C6 counterexample: the grid-resampling substitution of lines 529-530
(`dists[oIDs, :] = 0.001`) overwrites the WHOLE row of any query whose
first distance is zero, so the strictly positive distances 2 and 4 of the
row `[0, 2, 4]` are also changed, contradicting "every non-zero distance
is left unchanged". -/
theorem C6_counterexample :
    gridEpsSubst [[(0 : ℚ), 2, 4]] = [[1 / 1000, 1 / 1000, 1 / 1000]] ∧
    ((gridEpsSubst [[(0 : ℚ), 2, 4]]).getD 0 []).getD 1 0 ≠ 2 := by
  constructor <;> norm_num [gridEpsSubst, List.replicate]

/-- `getD` through a map that fixes the default row. -/
theorem getD_map_of_nil {α β : Type} (f : List α → List β) (hf : f [] = [])
    (l : List (List α)) (i : ℕ) : (l.map f).getD i [] = f (l.getD i []) := by
  induction l generalizing i with
  | nil => simp [hf]
  | cons a l ih =>
    cases i with
    | zero => rfl
    | succ i => simp only [List.map_cons, List.getD_cons_succ]; exact ih i

/-- `getD` through an element-wise map that fixes the default element. -/
theorem getD_map_of_default {α β : Type} (g : α → β) (d : α) (l : List α) (i : ℕ) :
    (l.map g).getD i (g d) = g (l.getD i d) := by
  induction l generalizing i with
  | nil => rfl
  | cons a l ih =>
    cases i with
    | zero => rfl
    | succ i => simp only [List.map_cons, List.getD_cons_succ]; exact ih i

/-- C6 amended: the two call sites substitute differently.  Mesh
projection (line 316) replaces exactly the zero distances by `1e-6`,
element-wise, leaving every non-zero distance unchanged — and on
non-negative input all substituted distances are strictly positive, so the
`1/d²` weighting is finite.  Grid resampling (lines 529-530 and 606-607)
instead overwrites the ENTIRE row of every query whose first (minimum)
distance is zero with `1e-3`, changing that row's non-zero distances too;
rows whose minimum distance is non-zero are left untouched. -/
theorem C6_amended_epsilon_policy (d : List (List ℚ))
    (hnn : ∀ row ∈ d, ∀ x ∈ row, 0 ≤ x) :
    (∀ row ∈ meshEpsSubst d, ∀ x ∈ row, 0 < x) ∧
    (∀ i j : ℕ, (d.getD i []).getD j 1 ≠ 0 →
      ((meshEpsSubst d).getD i []).getD j 1 = (d.getD i []).getD j 1) ∧
    (∀ i j : ℕ, (d.getD i []).getD j 1 = 0 →
      ((meshEpsSubst d).getD i []).getD j 1 = 1 / 1000000) ∧
    (∀ i : ℕ, (d.getD i []).headD 1 ≠ 0 →
      (gridEpsSubst d).getD i [] = d.getD i []) ∧
    (∀ i : ℕ, (d.getD i []).headD 1 = 0 →
      (gridEpsSubst d).getD i [] = List.replicate (d.getD i []).length (1 / 1000)) := by
  have hmesh : ∀ i : ℕ, (meshEpsSubst d).getD i []
      = (d.getD i []).map (fun x => if x = 0 then 1 / 1000000 else x) := by
    intro i
    exact getD_map_of_nil _ rfl d i
  have hmeshEntry : ∀ i j : ℕ, ((meshEpsSubst d).getD i []).getD j 1
      = (if (d.getD i []).getD j 1 = 0 then 1 / 1000000 else (d.getD i []).getD j 1) := by
    intro i j
    rw [hmesh i]
    have h2 := getD_map_of_default (fun x : ℚ => if x = 0 then 1 / 1000000 else x) 1
      (d.getD i []) j
    simp only [show (fun x : ℚ => if x = 0 then 1 / 1000000 else x) 1 = 1 by norm_num] at h2
    exact h2
  refine ⟨?_, ?_, ?_, ?_, ?_⟩
  · intro row hrow x hx
    rw [meshEpsSubst, List.mem_map] at hrow
    obtain ⟨row₀, hrow₀, rfl⟩ := hrow
    rw [List.mem_map] at hx
    obtain ⟨x₀, hx₀, rfl⟩ := hx
    by_cases hz : x₀ = 0
    · simp [hz]
    · have := hnn row₀ hrow₀ x₀ hx₀
      simp only [if_neg hz]
      exact lt_of_le_of_ne this (Ne.symm hz)
  · intro i j hne
    rw [hmeshEntry i j, if_neg hne]
  · intro i j hz
    rw [hmeshEntry i j, if_pos hz]
  · intro i hne
    have := getD_map_of_nil
      (fun row : List ℚ => if row.headD 1 = 0 then row.map (fun _ => 1 / 1000) else row)
      (by simp) d i
    rw [gridEpsSubst, this, if_neg hne]
  · intro i hz
    have := getD_map_of_nil
      (fun row : List ℚ => if row.headD 1 = 0 then row.map (fun _ => 1 / 1000) else row)
      (by simp) d i
    rw [gridEpsSubst, this, if_pos hz, List.map_const']

/-- Witness for `C6_amended_epsilon_policy` at the concrete distance
matrix `[[0, 2, 4], [3, 5, 6]]`. -/
theorem C6_amended_epsilon_policy_witness :
    (∀ row ∈ meshEpsSubst [[(0 : ℚ), 2, 4], [3, 5, 6]], ∀ x ∈ row, 0 < x) ∧
    (∀ i j : ℕ, (([[(0 : ℚ), 2, 4], [3, 5, 6]].getD i []).getD j 1 ≠ 0) →
      ((meshEpsSubst [[(0 : ℚ), 2, 4], [3, 5, 6]]).getD i []).getD j 1
        = ([[(0 : ℚ), 2, 4], [3, 5, 6]].getD i []).getD j 1) ∧
    (∀ i j : ℕ, (([[(0 : ℚ), 2, 4], [3, 5, 6]].getD i []).getD j 1 = 0) →
      ((meshEpsSubst [[(0 : ℚ), 2, 4], [3, 5, 6]]).getD i []).getD j 1 = 1 / 1000000) ∧
    (∀ i : ℕ, (([[(0 : ℚ), 2, 4], [3, 5, 6]].getD i []).headD 1 ≠ 0) →
      (gridEpsSubst [[(0 : ℚ), 2, 4], [3, 5, 6]]).getD i []
        = [[(0 : ℚ), 2, 4], [3, 5, 6]].getD i []) ∧
    (∀ i : ℕ, (([[(0 : ℚ), 2, 4], [3, 5, 6]].getD i []).headD 1 = 0) →
      (gridEpsSubst [[(0 : ℚ), 2, 4], [3, 5, 6]]).getD i []
        = List.replicate ([[(0 : ℚ), 2, 4], [3, 5, 6]].getD i []).length (1 / 1000)) :=
  C6_amended_epsilon_policy [[(0 : ℚ), 2, 4], [3, 5, 6]] (by
    intro row hrow x hx
    simp only [List.mem_cons, List.not_mem_nil, or_false] at hrow
    rcases hrow with rfl | rfl <;> simp only [List.mem_cons, List.not_mem_nil, or_false] at hx <;>
      rcases hx with rfl | rfl | rfl <;> norm_num)

/-- C8: geographic grid dimensions.  `buildLonLatMesh` (lines 512-523)
computes `int(span/res) + 1` samples per axis — which equals
`floor(span/res) + 1` whenever the span is non-negative and the
resolution positive — and the default box `[-180,180]×[-90,90]` at
resolution 1.0 yields exactly 361 columns and 181 rows. -/
theorem C8_grid_dimensions (res x0 y0 x1 y1 : ℚ)
    (hres : 0 < res) (hx : x0 ≤ x1) (hy : y0 ≤ y1) :
    lonlatNx res (some (x0, y0, x1, y1)) = ⌊(x1 - x0) / res⌋ + 1 ∧
    lonlatNy res (some (x0, y0, x1, y1)) = ⌊(y1 - y0) / res⌋ + 1 ∧
    lonlatNx res none = ⌊(360 : ℚ) / res⌋ + 1 ∧
    lonlatNy res none = ⌊(180 : ℚ) / res⌋ + 1 ∧
    lonlatNx 1 none = 361 ∧ lonlatNy 1 none = 181 := by
  have hnneg : ∀ s : ℚ, 0 ≤ s → pyInt (s / res) = ⌊s / res⌋ := by
    intro s hs
    rw [pyInt, if_neg]
    exact not_lt.mpr (div_nonneg hs hres.le)
  refine ⟨?_, ?_, ?_, ?_, ?_, ?_⟩
  · simp [lonlatNx, hnneg (x1 - x0) (by linarith)]
  · simp [lonlatNy, hnneg (y1 - y0) (by linarith)]
  · simp [lonlatNx, hnneg 360 (by norm_num)]
  · simp [lonlatNy, hnneg 180 (by norm_num)]
  · norm_num [lonlatNx, pyInt]
  · norm_num [lonlatNy, pyInt]

/-- Witness for `C8_grid_dimensions` with resolution 1 over the box
`(0, 0, 30, 40)`. -/
theorem C8_grid_dimensions_witness :
    lonlatNx 1 (some ((0 : ℚ), 0, 30, 40)) = ⌊((30 : ℚ) - 0) / 1⌋ + 1 ∧
    lonlatNy 1 (some ((0 : ℚ), 0, 30, 40)) = ⌊((40 : ℚ) - 0) / 1⌋ + 1 ∧
    lonlatNx 1 none = ⌊(360 : ℚ) / 1⌋ + 1 ∧
    lonlatNy 1 none = ⌊(180 : ℚ) / 1⌋ + 1 ∧
    lonlatNx 1 none = 361 ∧ lonlatNy 1 none = 181 :=
  C8_grid_dimensions 1 0 0 30 40 (by norm_num) (by norm_num) (by norm_num)

/-- Per-partition h5 payload read by `getData` (lines 240-254): one
coordinate dataset plus the named scalar datasets. -/
structure PartData where
  coords : List (ℚ × ℚ × ℚ)
  elev : List ℚ
  rain : List ℚ
  erodep : List ℚ
  erodeprate : List ℚ
  sedLoad : List ℚ
  fillAcc : List ℚ
  uplift : List ℚ
  fexIso : List ℚ
  deriving DecidableEq, Repr

/-- The instance attributes of a `mapOutputs` object that the grid/export
methods touch.  `Option` on `flowAcc` means "attribute never assigned"
(its only assignments, lines 250/287/345-348/381-384/406, are commented
out); `Option` on `uplift`/`flexIso` means "assigned the Python value
`None`" (they are always assigned, lines 46-47).  The `dataf*` grids use
`Option (Option _)`: outer `none` = attribute never created, `some none` =
Python `None`, `some (some g)` = an allocated grid (kept flattened,
row-major with `ny` rows of `nx` entries). -/
structure MOState where
  lookuplift : Bool
  flex : Bool
  step : ℕ
  elev : List ℚ
  rain : List ℚ
  erodep : List ℚ
  erodeprate : List ℚ
  sedLoad : List ℚ
  fillAcc : List ℚ
  flowAcc : Option (List ℚ)
  uplift : Option (List ℚ)
  flexIso : Option (List ℚ)
  hFill : List ℚ
  labels : List ℤ
  lonlat : List (ℚ × ℚ)
  res : Option ℚ
  nx : Option ℤ
  ny : ℤ
  lonAxis : List ℚ
  latAxis : List ℚ
  xyi : List (ℚ × ℚ)
  dists : List (List ℚ)
  ids : List (List ℕ)
  oIDs : List ℕ
  wghts : List (List ℚ)
  denum : List ℚ
  datafA : Option (Option (List ℚ))
  dataffA : Option (Option (List ℚ))
  datafelev : Option (Option (List ℚ))
  datafRain : Option (Option (List ℚ))
  datafSL : Option (Option (List ℚ))
  datafSed : Option (Option (List ℚ))
  datafUp : Option (Option (List ℚ))
  datafFlex : Option (Option (List ℚ))
  datafEroDep : Option (Option (List ℚ))
  datafEDRate : Option (Option (List ℚ))
  datafBasin : Option (Option (List ℤ))
  deriving DecidableEq, Repr

/-- `__init__` followed by the first `getData(step)` call (lines 17-67 and
232-430) on a fresh instance.  The cKDTree query over the merged point
cloud at the reference-mesh vertices (`tree.query(self.vertices, k=3)`,
line 315) enters as the pair `meshDists`/`meshInds`; the native
`filllabel` collaborator enters as a function from the adjusted mesh
elevation to (filled elevation, basin labels); the spherical-mode
`_xyz2lonlat` trigonometric output enters as `sphLonlat` (its
normalisation step is verified separately as `normLon`/`normLat`).
`sealevel` is the constant offset of line 260.  Note what is and is not
assigned afterwards: `flowAcc` never (its assignments are commented out),
`uplift`/`flexIso` hold values only for `step > 0` under their flags
(lines 251-254), `datafA` is never created (absent from lines 56-65), and
the other `dataf*` attributes hold Python `None`. -/
def initModel (lookuplift flex utm : Bool) (step : ℕ) (sealevel : ℚ)
    (parts : List PartData) (sphLonlat : List (ℚ × ℚ))
    (meshDists : List (List ℚ)) (meshInds : List (List ℕ))
    (filllabel : List ℚ → List ℚ × List ℤ) : MOState :=
  let ncoords := mergeField (parts.map (fun p => p.coords))
  let nelev := mergeField (parts.map (fun p => p.elev.map (fun z => z - sealevel)))
  let elev := getDataField meshDists meshInds nelev
  let fl := filllabel elev
  { lookuplift := lookuplift
    flex := flex
    step := step
    elev := elev
    rain := getDataField meshDists meshInds (mergeField (parts.map (fun p => p.rain)))
    erodep := getDataField meshDists meshInds (mergeField (parts.map (fun p => p.erodep)))
    erodeprate := getDataField meshDists meshInds
      (mergeField (parts.map (fun p => p.erodeprate)))
    sedLoad := getDataField meshDists meshInds (mergeField (parts.map (fun p => p.sedLoad)))
    fillAcc := getDataField meshDists meshInds (mergeField (parts.map (fun p => p.fillAcc)))
    flowAcc := none
    uplift := if lookuplift = true ∧ 0 < step then
        some (getDataField meshDists meshInds (mergeField (parts.map (fun p => p.uplift))))
      else none
    flexIso := if flex = true ∧ 0 < step then
        some (getDataField meshDists meshInds (mergeField (parts.map (fun p => p.fexIso))))
      else none
    hFill := fl.1
    labels := fl.2
    lonlat := if utm then ncoords.map (fun c => (c.1, c.2.1)) else sphLonlat
    res := none
    nx := none
    ny := 0
    lonAxis := []
    latAxis := []
    xyi := []
    dists := []
    ids := []
    oIDs := []
    wghts := []
    denum := []
    datafA := none
    dataffA := some none
    datafelev := some none
    datafRain := some none
    datafSL := none
    datafSed := some none
    datafUp := some none
    datafFlex := some none
    datafEroDep := some none
    datafEDRate := some none
    datafBasin := some none }

/-- One resampled grid field (lines 535-553 / 612-636): weighted sum times
the zeroed reciprocal denominator, then the zero-distance override. -/
def gridFieldOf (w : List (List ℚ)) (den : List ℚ) (oIDs : List ℕ)
    (ids : List (List ℕ)) (vals : List ℚ) : List ℚ :=
  overrideAt (List.zipWith (fun a b => a * b) (idwDot w ids vals) den) oIDs ids vals

/-- Basin labels on the grid (lines 543 / 623): `labels[ids[:, 0]]`, the
label of the first (nearest) query result — never weighted, and never
touched by the zero-distance override block. -/
def gridBasinOf (labels : List ℤ) (ids : List (List ℕ)) : List ℤ :=
  ids.map (fun r => labels.getD (r.headD 0) 0)

/-- `buildLonLatMesh` longitude axis (lines 517, 522). -/
def lonlatLonAxis (res : ℚ) (box : Option (ℚ × ℚ × ℚ × ℚ)) : List ℚ :=
  match box with
  | none => linspaceQ (-180) 180 (lonlatNx res box).toNat
  | some (x0, _, x1, _) => linspaceQ x0 x1 (lonlatNx res box).toNat

/-- `buildLonLatMesh` latitude axis (lines 518, 523). -/
def lonlatLatAxis (res : ℚ) (box : Option (ℚ × ℚ × ℚ × ℚ)) : List ℚ :=
  match box with
  | none => linspaceQ (-90) 90 (lonlatNy res box).toNat
  | some (_, y0, _, y1) => linspaceQ y0 y1 (lonlatNy res box).toNat

/-- `buildLonLatMesh` flattened query points (lines 525-526). -/
def lonlatXyi (res : ℚ) (box : Option (ℚ × ℚ × ℚ × ℚ)) : List (ℚ × ℚ) :=
  meshFlattenQ (lonlatLonAxis res box) (lonlatLatAxis res box)

/-- Rebuild branch of `buildLonLatMesh` (lines 512-533): new axes, new
flattened query points, fresh tree query, zero-row bookkeeping, epsilon
substitution, weights and zeroed reciprocal weight sums. -/
def lonlatRebuild (tq : List (ℚ × ℚ) → ℕ → List (List ℚ) × List (List ℕ))
    (s : MOState) (res : ℚ) (nghb : ℕ) (box : Option (ℚ × ℚ × ℚ × ℚ)) : MOState :=
  let lon := lonlatLonAxis res box
  let lat := lonlatLatAxis res box
  let xyi := lonlatXyi res box
  let di := tq xyi nghb
  let oIDs := zeroHeadRows di.1 0
  let d2 := gridEpsSubst di.1
  let w := weightsOf d2
  let den := zeroAt ((w.map List.sum).map (fun t => 1 / t)) oIDs
  { s with
    res := some res
    nx := some (lonlatNx res box)
    ny := lonlatNy res box
    lonAxis := lon
    latAxis := lat
    xyi := xyi
    dists := d2
    ids := di.2
    oIDs := oIDs
    wghts := w
    denum := den }

/-- Cache logic of `buildLonLatMesh` (lines 506-533): invalidate on a
resolution change only (the box never enters the comparison), rebuild when
`nx` is `None`, otherwise reuse every cached array as is. -/
def lonlatCacheStep (tq : List (ℚ × ℚ) → ℕ → List (List ℚ) × List (List ℕ))
    (s : MOState) (res : ℚ) (nghb : ℕ) (box : Option (ℚ × ℚ × ℚ × ℚ)) : MOState :=
  let s1 := match s.res with
    | none => s
    | some r => if r ≠ res then { s with nx := none } else s
  match s1.nx with
  | some _ => s1
  | none => lonlatRebuild tq s1 res nghb box

/-- Whether an in-place write `attr[:, :] = v` (lines 577-586 / 666-678)
succeeds: it raises `AttributeError` when the attribute was never created
and `TypeError` when it holds Python `None`; otherwise the attribute ends
up holding the written array. -/
def writeOk {α : Type} (a : Option (Option α)) : Option PyErr :=
  match a with
  | none => some PyErr.attributeError
  | some none => some PyErr.typeError
  | some (some _) => none

/-- The output-grid attributes (`dataf*`) of a `mapOutputs` instance,
split out because the grid builders mutate only these. -/
structure DatafSet where
  datafA : Option (Option (List ℚ))
  dataffA : Option (Option (List ℚ))
  datafelev : Option (Option (List ℚ))
  datafRain : Option (Option (List ℚ))
  datafSL : Option (Option (List ℚ))
  datafSed : Option (Option (List ℚ))
  datafUp : Option (Option (List ℚ))
  datafFlex : Option (Option (List ℚ))
  datafEroDep : Option (Option (List ℚ))
  datafEDRate : Option (Option (List ℚ))
  datafBasin : Option (Option (List ℤ))
  deriving DecidableEq, Repr

/-- Read the `dataf*` attributes out of the instance state. -/
def datafsOf (s : MOState) : DatafSet :=
  { datafA := s.datafA, dataffA := s.dataffA, datafelev := s.datafelev
    datafRain := s.datafRain, datafSL := s.datafSL, datafSed := s.datafSed
    datafUp := s.datafUp, datafFlex := s.datafFlex, datafEroDep := s.datafEroDep
    datafEDRate := s.datafEDRate, datafBasin := s.datafBasin }

/-- Store the `dataf*` attributes back into the instance state. -/
def withDatafs (s : MOState) (d : DatafSet) : MOState :=
  { s with
    datafA := d.datafA
    dataffA := d.dataffA
    datafelev := d.datafelev
    datafRain := d.datafRain
    datafSL := d.datafSL
    datafSed := d.datafSed
    datafUp := d.datafUp
    datafFlex := d.datafFlex
    datafEroDep := d.datafEroDep
    datafEDRate := d.datafEDRate
    datafBasin := d.datafBasin }

/-- Everything `buildLonLatMesh` does after its cache block (lines
535-588), acting on the `dataf*` attributes: execution reads
`self.flowAcc` at line 536 and tests `self.datafA` at line 565, allocates
the output grids when `datafA` is `None` (line 570 creates `datafSL` by
plain assignment; the geographic variant allocates no `datafFlex` or
`datafEDRate`), then writes the grids in source order (lines 577-586).
The attributes mutated before an exception are returned next to the
error, mirroring that Python attribute mutations persist when the method
raises. -/
def lonlatWriteSeq (s : MOState) : DatafSet × Option PyErr :=
  let d0 := datafsOf s
  let zi := gridFieldOf s.wghts s.denum s.oIDs s.ids s.elev
  match s.flowAcc with
  | none => (d0, some PyErr.attributeError)
  | some flowAcc =>
  let fai := gridFieldOf s.wghts s.denum s.oIDs s.ids flowAcc
  let ffai := gridFieldOf s.wghts s.denum s.oIDs s.ids s.fillAcc
  let raini := gridFieldOf s.wghts s.denum s.oIDs s.ids s.rain
  let erodepi := gridFieldOf s.wghts s.denum s.oIDs s.ids s.erodep
  let sedLoadi := gridFieldOf s.wghts s.denum s.oIDs s.ids s.sedLoad
  let uplifti := match s.uplift with
    | some u =>
        if s.lookuplift then some (gridFieldOf s.wghts s.denum s.oIDs s.ids u) else none
    | none => none
  let lbli := gridBasinOf s.labels s.ids
  match d0.datafA with
  | none => (d0, some PyErr.attributeError)
  | some dA =>
  let n := (s.ny * s.nx.getD 0).toNat
  let d1 := if dA = none then
      { d0 with
        datafelev := some (some (List.replicate n 0))
        datafA := some (some (List.replicate n 0))
        dataffA := some (some (List.replicate n 0))
        datafRain := some (some (List.replicate n 0))
        datafSL := some (some (List.replicate n 0))
        datafSed := some (some (List.replicate n 0))
        datafUp := if s.lookuplift then some (some (List.replicate n 0)) else d0.datafUp
        datafEroDep := some (some (List.replicate n 0))
        datafBasin := some (some (List.replicate n 0)) }
    else d0
  match writeOk d1.datafelev with
  | some e => (d1, some e)
  | none =>
  let d2 := { d1 with datafelev := some (some zi) }
  match writeOk d2.datafRain with
  | some e => (d2, some e)
  | none =>
  let d3 := { d2 with datafRain := some (some raini) }
  match writeOk d3.datafEroDep with
  | some e => (d3, some e)
  | none =>
  let d4 := { d3 with datafEroDep := some (some erodepi) }
  match writeOk d4.datafSed with
  | some e => (d4, some e)
  | none =>
  let d5 := { d4 with datafSed := some (some sedLoadi) }
  match writeOk d5.datafA with
  | some e => (d5, some e)
  | none =>
  let d6 := { d5 with datafA := some (some fai) }
  match writeOk d6.dataffA with
  | some e => (d6, some e)
  | none =>
  let d7 := { d6 with dataffA := some (some ffai) }
  match writeOk d7.datafBasin with
  | some e => (d7, some e)
  | none =>
  let d8 := { d7 with datafBasin := some (some lbli) }
  match uplifti with
  | none => (d8, none)
  | some u =>
    match writeOk d8.datafUp with
    | some e => (d8, some e)
    | none => ({ d8 with datafUp := some (some u) }, none)

/-- The post-cache stage of `buildLonLatMesh` as a state transformer. -/
def lonlatWriteStage (s : MOState) : MOState × Option PyErr :=
  let r := lonlatWriteSeq s
  (withDatafs s r.1, r.2)

/-- `buildLonLatMesh(res, nghb, box)` (lines 506-588): cache step, then
field resampling and grid writes. -/
def buildLonLatMeshM (tq : List (ℚ × ℚ) → ℕ → List (List ℚ) × List (List ℕ))
    (s : MOState) (res : ℚ) (nghb : ℕ) (box : Option (ℚ × ℚ × ℚ × ℚ)) :
    MOState × Option PyErr :=
  lonlatWriteStage (lonlatCacheStep tq s res nghb box)

/-- Minimum of a coordinate column (`self.lonlat[:, i].min()`, empty
input defaulting to 0; the runs studied have points). -/
def minD (xs : List ℚ) : ℚ :=
  match xs with
  | [] => 0
  | h :: t => t.foldl min h

/-- Maximum of a coordinate column. -/
def maxD (xs : List ℚ) : ℚ :=
  match xs with
  | [] => 0
  | h :: t => t.foldl max h

/-- `buildUTMmesh` x-axis (lines 592-597): `np.arange(xo, xm + res, res)`. -/
def utmLonAxis (lonlat : List (ℚ × ℚ)) (res : ℚ) : List ℚ :=
  let xs := lonlat.map Prod.fst
  arangeQ (minD xs) (maxD xs + res) res

/-- `buildUTMmesh` y-axis (lines 594-598). -/
def utmLatAxis (lonlat : List (ℚ × ℚ)) (res : ℚ) : List ℚ :=
  let ys := lonlat.map Prod.snd
  arangeQ (minD ys) (maxD ys + res) res

/-- Field-and-write stage of `buildUTMmesh` (lines 612-678), acting on the
`dataf*` attributes of the already-updated state: resample every field
(no flow accumulation — those lines are commented out here), test
`self.dataffA is None` (line 651) and allocate (skipping `datafA`,
including `datafEDRate` and, under its flag, `datafFlex`), then write in
source order (lines 666-678). -/
def utmWriteSeq (s : MOState) : DatafSet × Option PyErr :=
  let d0 := datafsOf s
  let zi := gridFieldOf s.wghts s.denum s.oIDs s.ids s.elev
  let ffai := gridFieldOf s.wghts s.denum s.oIDs s.ids s.fillAcc
  let raini := gridFieldOf s.wghts s.denum s.oIDs s.ids s.rain
  let erodepi := gridFieldOf s.wghts s.denum s.oIDs s.ids s.erodep
  let erodepratei := gridFieldOf s.wghts s.denum s.oIDs s.ids s.erodeprate
  let sedLoadi := gridFieldOf s.wghts s.denum s.oIDs s.ids s.sedLoad
  let uplifti := match s.uplift with
    | some u =>
        if s.lookuplift then some (gridFieldOf s.wghts s.denum s.oIDs s.ids u) else none
    | none => none
  let flexi := match s.flexIso with
    | some f =>
        if s.flex then some (gridFieldOf s.wghts s.denum s.oIDs s.ids f) else none
    | none => none
  let lbli := gridBasinOf s.labels s.ids
  match d0.dataffA with
  | none => (d0, some PyErr.attributeError)
  | some dffA =>
  let n := (s.ny * s.nx.getD 0).toNat
  let d1 := if dffA = none then
      { d0 with
        datafelev := some (some (List.replicate n 0))
        dataffA := some (some (List.replicate n 0))
        datafRain := some (some (List.replicate n 0))
        datafSL := some (some (List.replicate n 0))
        datafSed := some (some (List.replicate n 0))
        datafUp := if s.lookuplift then some (some (List.replicate n 0)) else d0.datafUp
        datafFlex := if s.flex then some (some (List.replicate n 0)) else d0.datafFlex
        datafEroDep := some (some (List.replicate n 0))
        datafEDRate := some (some (List.replicate n 0))
        datafBasin := some (some (List.replicate n 0)) }
    else d0
  match writeOk d1.datafelev with
  | some e => (d1, some e)
  | none =>
  let d2 := { d1 with datafelev := some (some zi) }
  match writeOk d2.datafRain with
  | some e => (d2, some e)
  | none =>
  let d3 := { d2 with datafRain := some (some raini) }
  match writeOk d3.datafEroDep with
  | some e => (d3, some e)
  | none =>
  let d4 := { d3 with datafEroDep := some (some erodepi) }
  match writeOk d4.datafEDRate with
  | some e => (d4, some e)
  | none =>
  let d5 := { d4 with datafEDRate := some (some erodepratei) }
  match writeOk d5.datafSed with
  | some e => (d5, some e)
  | none =>
  let d6 := { d5 with datafSed := some (some sedLoadi) }
  match writeOk d6.dataffA with
  | some e => (d6, some e)
  | none =>
  let d7 := { d6 with dataffA := some (some ffai) }
  match writeOk d7.datafBasin with
  | some e => (d7, some e)
  | none =>
  let d8 := { d7 with datafBasin := some (some lbli) }
  match uplifti with
  | some u =>
    (match writeOk d8.datafUp with
     | some e => (d8, some e)
     | none =>
       let d9 := { d8 with datafUp := some (some u) }
       match flexi with
       | some f =>
         (match writeOk d9.datafFlex with
          | some e => (d9, some e)
          | none => ({ d9 with datafFlex := some (some f) }, none))
       | none => (d9, none))
  | none =>
    match flexi with
    | some f =>
      (match writeOk d8.datafFlex with
       | some e => (d8, some e)
       | none => ({ d8 with datafFlex := some (some f) }, none))
    | none => (d8, none)

/-- The state updates of `buildUTMmesh` lines 592-610: grid axes from the
current extent, flattened query points, fresh tree query, zero rows,
epsilon substitution, weights and zeroed reciprocal sums — recomputed on
every call, no cache. -/
def utmCacheState (tq : List (ℚ × ℚ) → ℕ → List (List ℚ) × List (List ℕ))
    (s0 : MOState) (res : ℚ) (nghb : ℕ) : MOState :=
  let lon := utmLonAxis s0.lonlat res
  let lat := utmLatAxis s0.lonlat res
  let xyi := meshFlattenQ lon lat
  let di := tq xyi nghb
  let oIDs := zeroHeadRows di.1 0
  let d2 := gridEpsSubst di.1
  let w := weightsOf d2
  let den := zeroAt ((w.map List.sum).map (fun t => 1 / t)) oIDs
  { s0 with
    lonAxis := lon
    latAxis := lat
    nx := some (lon.length : ℤ)
    ny := (lat.length : ℤ)
    xyi := xyi
    dists := d2
    ids := di.2
    oIDs := oIDs
    wghts := w
    denum := den }

/-- `buildUTMmesh(res, nghb)` (lines 590-678): recompute the grid state,
then resample and write. -/
def buildUTMmeshM (tq : List (ℚ × ℚ) → ℕ → List (List ℚ) × List (List ℕ))
    (s0 : MOState) (res : ℚ) (nghb : ℕ) : MOState × Option PyErr :=
  let s := utmCacheState tq s0 res nghb
  let r := utmWriteSeq s
  (withDatafs s r.1, r.2)

/-- C2: on every freshly constructed `mapOutputs` instance, for every
argument triple, `buildLonLatMesh` stops with an `AttributeError`: after
its cache block it evaluates `self.flowAcc[self.ids]` (line 536) but no
surviving line of the class ever assigns `flowAcc` (the assignments are
commented out), and the later `self.datafA is None` test (line 565) reads
an attribute `__init__` never creates either — geographic-mode grid
resampling can never complete. -/
theorem C2_buildLonLatMesh_always_raises
    (lookuplift flex utm : Bool) (step : ℕ) (sealevel : ℚ)
    (parts : List PartData) (sphLonlat : List (ℚ × ℚ))
    (meshDists : List (List ℚ)) (meshInds : List (List ℕ))
    (filllabel : List ℚ → List ℚ × List ℤ)
    (tq : List (ℚ × ℚ) → ℕ → List (List ℚ) × List (List ℕ))
    (res : ℚ) (nghb : ℕ) (box : Option (ℚ × ℚ × ℚ × ℚ)) :
    (initModel lookuplift flex utm step sealevel parts sphLonlat meshDists meshInds
        filllabel).flowAcc = none ∧
    (initModel lookuplift flex utm step sealevel parts sphLonlat meshDists meshInds
        filllabel).datafA = none ∧
    (buildLonLatMeshM tq
        (initModel lookuplift flex utm step sealevel parts sphLonlat meshDists meshInds
          filllabel) res nghb box).2 = some PyErr.attributeError :=
  ⟨rfl, rfl, rfl⟩

/-- The cache-relevant projection of an instance state: everything
`buildLonLatMesh` lines 506-533 write and lines 535-553 read back. -/
def cacheView (s : MOState) :
    Option ℚ × Option ℤ × ℤ × List ℚ × List ℚ × List (ℚ × ℚ) × List (List ℚ) ×
      List (List ℕ) × List ℕ × List (List ℚ) × List ℚ :=
  (s.res, s.nx, s.ny, s.lonAxis, s.latAxis, s.xyi, s.dists, s.ids, s.oIDs, s.wghts,
    s.denum)

/-- The write stage only ever touches `dataf*` attributes: every cache
field survives it unchanged, whether it returns normally or with an
error. -/
theorem lonlatWriteStage_cache (s : MOState) :
    cacheView (lonlatWriteStage s).1 = cacheView s :=
  rfl

/-- Cache reuse: when the cached resolution equals the requested one and
`nx` holds a value, `buildLonLatMesh`'s cache block leaves the state
untouched — the supplied box is never consulted. -/
theorem lonlatCacheStep_reuse (tq : List (ℚ × ℚ) → ℕ → List (List ℚ) × List (List ℕ))
    (s : MOState) (res : ℚ) (nghb : ℕ) (box : Option (ℚ × ℚ × ℚ × ℚ))
    (h1 : s.res = some res) (h2 : ∃ n, s.nx = some n) :
    lonlatCacheStep tq s res nghb box = s := by
  obtain ⟨n, hn⟩ := h2
  simp [lonlatCacheStep, h1, hn]

/-- Fresh instance: both `res` and `nx` are `None`, so the cache block
rebuilds. -/
theorem lonlatCacheStep_fresh (tq : List (ℚ × ℚ) → ℕ → List (List ℚ) × List (List ℕ))
    (s : MOState) (res : ℚ) (nghb : ℕ) (box : Option (ℚ × ℚ × ℚ × ℚ))
    (h1 : s.res = none) (h2 : s.nx = none) :
    lonlatCacheStep tq s res nghb box = lonlatRebuild tq s res nghb box := by
  simp [lonlatCacheStep, h1, h2]

/-- Resolution change: the cached resolution differs from the requested
one, so `nx` is reset and the cache block rebuilds. -/
theorem lonlatCacheStep_newres (tq : List (ℚ × ℚ) → ℕ → List (List ℚ) × List (List ℕ))
    (s : MOState) (res : ℚ) (nghb : ℕ) (box : Option (ℚ × ℚ × ℚ × ℚ)) (r : ℚ)
    (h1 : s.res = some r) (hne : r ≠ res) :
    lonlatCacheStep tq s res nghb box
      = lonlatRebuild tq { s with nx := none } res nghb box := by
  simp [lonlatCacheStep, h1, hne]

/-- C3 amended: the grid cache key is the resolution alone.  In
`buildLonLatMesh`, a second call with the same resolution reuses every
cached array (query points, distances, indices, weights, denominators and
dimensions) WHATEVER box is passed — so a changed extent with an unchanged
resolution silently reuses the stale cache; a changed resolution triggers
a full rebuild with the newly computed dimensions and freshly queried
distances and indices.  `buildUTMmesh` keeps no cache and recomputes its
query points and weights from the current extent on every call. -/
theorem C3_amended_cache_key_is_resolution_only
    (tq : List (ℚ × ℚ) → ℕ → List (List ℚ) × List (List ℕ)) (s0 : MOState)
    (res res2 : ℚ) (nghb : ℕ) (box box2 : Option (ℚ × ℚ × ℚ × ℚ))
    (hres0 : s0.res = none) (hnx0 : s0.nx = none) (hne : res2 ≠ res) :
    cacheView (buildLonLatMeshM tq (buildLonLatMeshM tq s0 res nghb box).1 res nghb
        box2).1
      = cacheView (buildLonLatMeshM tq s0 res nghb box).1 ∧
    ((buildLonLatMeshM tq (buildLonLatMeshM tq s0 res nghb box).1 res2 nghb box2).1.res
        = some res2 ∧
      (buildLonLatMeshM tq (buildLonLatMeshM tq s0 res nghb box).1 res2 nghb
          box2).1.nx = some (lonlatNx res2 box2) ∧
      (buildLonLatMeshM tq (buildLonLatMeshM tq s0 res nghb box).1 res2 nghb
          box2).1.ny = lonlatNy res2 box2 ∧
      (buildLonLatMeshM tq (buildLonLatMeshM tq s0 res nghb box).1 res2 nghb
          box2).1.xyi = lonlatXyi res2 box2 ∧
      (buildLonLatMeshM tq (buildLonLatMeshM tq s0 res nghb box).1 res2 nghb
          box2).1.dists = gridEpsSubst (tq (lonlatXyi res2 box2) nghb).1 ∧
      (buildLonLatMeshM tq (buildLonLatMeshM tq s0 res nghb box).1 res2 nghb
          box2).1.ids = (tq (lonlatXyi res2 box2) nghb).2) ∧
    (∀ (sU : MOState) (resU : ℚ),
      (buildUTMmeshM tq sU resU nghb).1.xyi
        = meshFlattenQ (utmLonAxis sU.lonlat resU) (utmLatAxis sU.lonlat resU) ∧
      (buildUTMmeshM tq sU resU nghb).1.dists
        = gridEpsSubst
            (tq (meshFlattenQ (utmLonAxis sU.lonlat resU) (utmLatAxis sU.lonlat resU))
              nghb).1) := by
  have hb1 : buildLonLatMeshM tq s0 res nghb box
      = lonlatWriteStage (lonlatRebuild tq s0 res nghb box) := by
    rw [buildLonLatMeshM, lonlatCacheStep_fresh tq s0 res nghb box hres0 hnx0]
  have hs1res : (buildLonLatMeshM tq s0 res nghb box).1.res = some res := by
    rw [hb1]; rfl
  have hs1nx : (buildLonLatMeshM tq s0 res nghb box).1.nx
      = some (lonlatNx res box) := by
    rw [hb1]; rfl
  refine ⟨?_, ?_, ?_⟩
  · have hreuse := lonlatCacheStep_reuse tq (buildLonLatMeshM tq s0 res nghb box).1
      res nghb box2 hs1res ⟨_, hs1nx⟩
    calc cacheView (buildLonLatMeshM tq (buildLonLatMeshM tq s0 res nghb box).1 res
            nghb box2).1
        = cacheView (lonlatWriteStage ((buildLonLatMeshM tq s0 res nghb box).1)).1 := by
          rw [buildLonLatMeshM, hreuse]
      _ = cacheView (buildLonLatMeshM tq s0 res nghb box).1 :=
          lonlatWriteStage_cache _
  · have hchg := lonlatCacheStep_newres tq (buildLonLatMeshM tq s0 res nghb box).1
      res2 nghb box2 res hs1res (Ne.symm hne)
    refine ⟨?_, ?_, ?_, ?_, ?_, ?_⟩ <;> rw [buildLonLatMeshM, hchg] <;> rfl
  · intro sU resU
    exact ⟨rfl, rfl⟩

/-- A concrete stand-in for the cKDTree query: every query point gets k
neighbors at distance 1, indices `0..k-1`.  The cache claims do not depend
on the tree's geometry. -/
def tq0 : List (ℚ × ℚ) → ℕ → List (List ℚ) × List (List ℕ) :=
  fun pts k => (pts.map (fun _ => List.replicate k 1), pts.map (fun _ => List.range k))

/-- A concrete single partition: three collinear points. -/
def part0 : PartData :=
  { coords := [(0, 0, 0), (3, 0, 0), (4, 0, 0)], elev := [10, 20, 30]
    rain := [1, 1, 1], erodep := [0, 0, 0], erodeprate := [0, 0, 0]
    sedLoad := [0, 0, 0], fillAcc := [1, 1, 1], uplift := [0, 0, 0]
    fexIso := [0, 0, 0] }

/-- A concrete freshly constructed instance: planar model, uplift flag on,
flexural isostasy off, timestep 0, three reference-mesh vertices each
seeing the three source points at distance 1. -/
def mo0 : MOState :=
  initModel true false true 0 0 [part0] []
    [[1, 1, 1], [1, 1, 1], [1, 1, 1]] [[0, 1, 2], [0, 1, 2], [0, 1, 2]]
    (fun z => (z, [7, 8, 9]))

/-- C3 counterexample: two successive `buildLonLatMesh` calls at identical
resolution 100 but different extents (the default box, then
`(0, 0, 10, 10)`).  The claim demands a full rebuild with the newly
computed dimensions (`nx = 1` for the new box); the code instead returns a
state identical to the first call's — same query points, same weights,
`nx` still 4 — silently reusing the mismatched cache. -/
theorem C3_counterexample :
    (buildLonLatMeshM tq0 (buildLonLatMeshM tq0 mo0 100 3 none).1 100 3
        (some ((0 : ℚ), 0, 10, 10))).1
      = (buildLonLatMeshM tq0 mo0 100 3 none).1 ∧
    (buildLonLatMeshM tq0 mo0 100 3 none).1.nx = some 4 ∧
    lonlatNx 100 (some ((0 : ℚ), 0, 10, 10)) = 1 ∧
    (buildLonLatMeshM tq0 (buildLonLatMeshM tq0 mo0 100 3 none).1 100 3
        (some ((0 : ℚ), 0, 10, 10))).1.nx
      ≠ some (lonlatNx 100 (some ((0 : ℚ), 0, 10, 10))) := by
  have hsame : (buildLonLatMeshM tq0 (buildLonLatMeshM tq0 mo0 100 3 none).1 100 3
      (some ((0 : ℚ), 0, 10, 10))).1 = (buildLonLatMeshM tq0 mo0 100 3 none).1 := rfl
  have hnx4 : (buildLonLatMeshM tq0 mo0 100 3 none).1.nx = some 4 := by
    rw [show (buildLonLatMeshM tq0 mo0 100 3 none).1.nx = some (lonlatNx 100 none)
      from rfl]
    norm_num [lonlatNx, pyInt]
  have hnx1 : lonlatNx 100 (some ((0 : ℚ), 0, 10, 10)) = 1 := by
    norm_num [lonlatNx, pyInt]
  refine ⟨hsame, hnx4, hnx1, ?_⟩
  rw [hsame, hnx4, hnx1]
  decide

/-- Witness for `C3_amended_cache_key_is_resolution_only`: the fresh
instance `mo0`, first call at resolution 100 with the default box, second
call at the same resolution with box `(0, 0, 10, 10)` (reuse), third at
resolution 50 (rebuild). -/
theorem C3_amended_cache_key_is_resolution_only_witness :
    cacheView (buildLonLatMeshM tq0 (buildLonLatMeshM tq0 mo0 100 3 none).1 100 3
        (some ((0 : ℚ), 0, 10, 10))).1
      = cacheView (buildLonLatMeshM tq0 mo0 100 3 none).1 ∧
    ((buildLonLatMeshM tq0 (buildLonLatMeshM tq0 mo0 100 3 none).1 50 3
        (some ((0 : ℚ), 0, 10, 10))).1.res = some 50 ∧
      (buildLonLatMeshM tq0 (buildLonLatMeshM tq0 mo0 100 3 none).1 50 3
          (some ((0 : ℚ), 0, 10, 10))).1.nx
        = some (lonlatNx 50 (some ((0 : ℚ), 0, 10, 10))) ∧
      (buildLonLatMeshM tq0 (buildLonLatMeshM tq0 mo0 100 3 none).1 50 3
          (some ((0 : ℚ), 0, 10, 10))).1.ny
        = lonlatNy 50 (some ((0 : ℚ), 0, 10, 10)) ∧
      (buildLonLatMeshM tq0 (buildLonLatMeshM tq0 mo0 100 3 none).1 50 3
          (some ((0 : ℚ), 0, 10, 10))).1.xyi
        = lonlatXyi 50 (some ((0 : ℚ), 0, 10, 10)) ∧
      (buildLonLatMeshM tq0 (buildLonLatMeshM tq0 mo0 100 3 none).1 50 3
          (some ((0 : ℚ), 0, 10, 10))).1.dists
        = gridEpsSubst (tq0 (lonlatXyi 50 (some ((0 : ℚ), 0, 10, 10))) 3).1 ∧
      (buildLonLatMeshM tq0 (buildLonLatMeshM tq0 mo0 100 3 none).1 50 3
          (some ((0 : ℚ), 0, 10, 10))).1.ids
        = (tq0 (lonlatXyi 50 (some ((0 : ℚ), 0, 10, 10))) 3).2) ∧
    (∀ (sU : MOState) (resU : ℚ),
      (buildUTMmeshM tq0 sU resU 3).1.xyi
        = meshFlattenQ (utmLonAxis sU.lonlat resU) (utmLatAxis sU.lonlat resU) ∧
      (buildUTMmeshM tq0 sU resU 3).1.dists
        = gridEpsSubst
            (tq0 (meshFlattenQ (utmLonAxis sU.lonlat resU) (utmLatAxis sU.lonlat resU))
              3).1) :=
  C3_amended_cache_key_is_resolution_only tq0 mo0 100 50 3 none
    (some ((0 : ℚ), 0, 10, 10)) rfl rfl (by norm_num)

/-- A value attached to a VTK `point_data` key: a float array, the integer
basin array, or the Python `None` placeholder (`self.uplift`/`self.flexIso`
when they were never filled). -/
inductive VtkVal
  | farr : List ℚ → VtkVal
  | iarr : List ℤ → VtkVal
  | pynone : VtkVal
  deriving DecidableEq, Repr

/-- `self.uplift` / `self.flexIso` as a VTK value: the array when present,
otherwise the Python `None` object itself. -/
def vtkValOfOpt (o : Option (List ℚ)) : VtkVal :=
  match o with
  | some u => VtkVal.farr u
  | none => VtkVal.pynone

/-- `exportVTK` (lines 432-504): the `point_data` dictionary handed to
`meshio.Mesh`, branch by branch on the two flags.  `mlog` stands for the
external `np.ma.log(...).filled(0)` transform applied to the fill
discharge; the branch without uplift and flex omits `fillFA` as the source
does.  When a flag is on, the corresponding entry is included with
whatever `self.uplift`/`self.flexIso` holds — including `None`. -/
def exportVTKPointData (mlog : ℚ → ℚ) (s : MOState) : List (String × VtkVal) :=
  let base := [("elev", VtkVal.farr s.elev), ("erodep", VtkVal.farr s.erodep),
    ("erodeprate", VtkVal.farr s.erodeprate), ("rain", VtkVal.farr s.rain)]
  let ffa := ("fillFA", VtkVal.farr (s.fillAcc.map mlog))
  let tail := [("SL", VtkVal.farr s.sedLoad),
    ("fill", VtkVal.farr (List.zipWith (fun a b => a - b) s.hFill s.elev)),
    ("basin", VtkVal.iarr s.labels)]
  match s.lookuplift, s.flex with
  | true, true =>
      base ++ [ffa] ++ tail ++ [("vtec", vtkValOfOpt s.uplift),
        ("flex", vtkValOfOpt s.flexIso)]
  | true, false => base ++ [ffa] ++ tail ++ [("vtec", vtkValOfOpt s.uplift)]
  | false, true => base ++ [ffa] ++ tail ++ [("flex", vtkValOfOpt s.flexIso)]
  | false, false => base ++ tail

/-- A NetCDF variable payload: float grid or integer grid. -/
inductive NCVar
  | fvar : List ℚ → NCVar
  | ivar : List ℤ → NCVar
  deriving DecidableEq, Repr

/-- Read a `dataf*` grid for export: `AttributeError` if the attribute was
never created, `TypeError` if it still holds Python `None` (writing `None`
into a NetCDF variable fails). -/
def readGridQ (a : Option (Option (List ℚ))) : Except PyErr (List ℚ) :=
  match a with
  | none => Except.error PyErr.attributeError
  | some none => Except.error PyErr.typeError
  | some (some v) => Except.ok v

/-- Integer variant of `readGridQ`. -/
def readGridZ (a : Option (Option (List ℤ))) : Except PyErr (List ℤ) :=
  match a with
  | none => Except.error PyErr.attributeError
  | some none => Except.error PyErr.typeError
  | some (some v) => Except.ok v

/-- A flag-gated NetCDF variable (lines 743-751): nothing when the flag is
off; otherwise read the grid attribute and emit the named variable. -/
def condRead (flag : Bool) (a : Option (Option (List ℚ))) (name : String) :
    Except PyErr (List (String × NCVar)) :=
  match flag, a with
  | false, _ => Except.ok []
  | true, none => Except.error PyErr.attributeError
  | true, some none => Except.error PyErr.typeError
  | true, some (some v) => Except.ok [(name, NCVar.fvar v)]

/-- The UTM branch of `exportNetCDF` (lines 714-755): the sequence of data
variables written to the file, in source order.  `uplift` is written iff
the `lookuplift` flag is set (line 743) and `flex` iff the `flex` flag is
set (line 748) — the gate is the flag, not the presence of data. -/
def exportNetCDFUTM (s : MOState) : Except PyErr (List (String × NCVar)) :=
  match readGridQ s.datafelev with
  | Except.error e => Except.error e
  | Except.ok e =>
  match readGridQ s.datafEDRate with
  | Except.error er => Except.error er
  | Except.ok edr =>
  match readGridQ s.datafEroDep with
  | Except.error er => Except.error er
  | Except.ok ed =>
  match readGridQ s.datafRain with
  | Except.error er => Except.error er
  | Except.ok r =>
  match readGridQ s.dataffA with
  | Except.error er => Except.error er
  | Except.ok ffa =>
  match readGridQ s.datafSed with
  | Except.error er => Except.error er
  | Except.ok sl =>
  match condRead s.lookuplift s.datafUp "uplift" with
  | Except.error er => Except.error er
  | Except.ok upl =>
  match condRead s.flex s.datafFlex "flex" with
  | Except.error er => Except.error er
  | Except.ok flx =>
  match readGridZ s.datafBasin with
  | Except.error er => Except.error er
  | Except.ok b =>
  Except.ok ([("elevation", NCVar.fvar e), ("erodep_rate", NCVar.fvar edr),
    ("erodep", NCVar.fvar ed), ("precipitation", NCVar.fvar r),
    ("fillDischarge", NCVar.fvar ffa), ("sedimentLoad", NCVar.fvar sl)]
    ++ upl ++ flx ++ [("basinID", NCVar.ivar b)])

/-- The fresh instance `mo0`, fully evaluated. -/
theorem mo0_eval : mo0 =
    { lookuplift := true, flex := false, step := 0
      elev := [20, 20, 20], rain := [1, 1, 1], erodep := [0, 0, 0]
      erodeprate := [0, 0, 0], sedLoad := [0, 0, 0], fillAcc := [1, 1, 1]
      flowAcc := none, uplift := none, flexIso := none
      hFill := [20, 20, 20], labels := [7, 8, 9]
      lonlat := [(0, 0), (3, 0), (4, 0)]
      res := none, nx := none, ny := 0, lonAxis := [], latAxis := [], xyi := []
      dists := [], ids := [], oIDs := [], wghts := [], denum := []
      datafA := none, dataffA := some none, datafelev := some none
      datafRain := some none, datafSL := none, datafSed := some none
      datafUp := some none, datafFlex := some none, datafEroDep := some none
      datafEDRate := some none, datafBasin := some none } := by
  norm_num [mo0, initModel, part0, mergeField, getDataField, meshEpsSubst, weightsOf,
    zeroHeadRows, idwDot, overrideAt, MOState.mk.injEq]

/-- The planar grid build on `mo0` at resolution 1 with 3 neighbors,
fully evaluated: it completes (no error), `datafUp` holds the zero grid
allocated at line 659 (the uplift data itself is absent at timestep 0),
and `datafBasin` holds the nearest-vertex labels. -/
theorem mo0_utm_eval : buildUTMmeshM tq0 mo0 1 3 =
    ({ lookuplift := true, flex := false, step := 0
       elev := [20, 20, 20], rain := [1, 1, 1], erodep := [0, 0, 0]
       erodeprate := [0, 0, 0], sedLoad := [0, 0, 0], fillAcc := [1, 1, 1]
       flowAcc := none, uplift := none, flexIso := none
       hFill := [20, 20, 20], labels := [7, 8, 9]
       lonlat := [(0, 0), (3, 0), (4, 0)]
       res := none, nx := some 5, ny := 1
       lonAxis := [0, 1, 2, 3, 4], latAxis := [0]
       xyi := [(0, 0), (1, 0), (2, 0), (3, 0), (4, 0)]
       dists := [[1, 1, 1], [1, 1, 1], [1, 1, 1], [1, 1, 1], [1, 1, 1]]
       ids := [[0, 1, 2], [0, 1, 2], [0, 1, 2], [0, 1, 2], [0, 1, 2]]
       oIDs := []
       wghts := [[1, 1, 1], [1, 1, 1], [1, 1, 1], [1, 1, 1], [1, 1, 1]]
       denum := [1 / 3, 1 / 3, 1 / 3, 1 / 3, 1 / 3]
       datafA := none, dataffA := some (some [1, 1, 1, 1, 1])
       datafelev := some (some [20, 20, 20, 20, 20])
       datafRain := some (some [1, 1, 1, 1, 1])
       datafSL := some (some [0, 0, 0, 0, 0])
       datafSed := some (some [0, 0, 0, 0, 0])
       datafUp := some (some [0, 0, 0, 0, 0])
       datafFlex := some none
       datafEroDep := some (some [0, 0, 0, 0, 0])
       datafEDRate := some (some [0, 0, 0, 0, 0])
       datafBasin := some (some [7, 7, 7, 7, 7]) }, none) := by
  rw [mo0_eval]
  norm_num [buildUTMmeshM, utmCacheState, utmWriteSeq, utmLonAxis, utmLatAxis, arangeQ, minD, maxD,
    meshFlattenQ, tq0, gridEpsSubst, weightsOf, zeroAt, gridFieldOf, idwDot,
    overrideAt, gridBasinOf, zeroHeadRows, datafsOf, withDatafs, writeOk,
    List.range_succ, List.range_zero,
    List.flatMap_cons, List.flatMap_nil, MOState.mk.injEq, Prod.ext_iff,
    DatafSet.mk.injEq, List.replicate]
  simp only [Int.reduceToNat]
  norm_num [List.range_succ, List.range_zero, List.flatMap_cons, List.flatMap_nil,
    List.replicate]

/-- C5 counterexample: the planar instance `mo0` has the uplift flag on
but no uplift data (timestep 0).  The grid build completes, NetCDF export
then emits an `uplift` variable filled with zeros (rather than omitting
it), and VTK export includes a `vtec` entry holding Python `None` (a null
placeholder) — the flag, not data presence, gates the export. -/
theorem C5_counterexample :
    mo0.lookuplift = true ∧ mo0.uplift = none ∧
    (buildUTMmeshM tq0 mo0 1 3).2 = none ∧
    exportNetCDFUTM (buildUTMmeshM tq0 mo0 1 3).1
      = Except.ok [("elevation", NCVar.fvar [20, 20, 20, 20, 20]),
          ("erodep_rate", NCVar.fvar [0, 0, 0, 0, 0]),
          ("erodep", NCVar.fvar [0, 0, 0, 0, 0]),
          ("precipitation", NCVar.fvar [1, 1, 1, 1, 1]),
          ("fillDischarge", NCVar.fvar [1, 1, 1, 1, 1]),
          ("sedimentLoad", NCVar.fvar [0, 0, 0, 0, 0]),
          ("uplift", NCVar.fvar [0, 0, 0, 0, 0]),
          ("basinID", NCVar.ivar [7, 7, 7, 7, 7])] ∧
    exportVTKPointData (fun q => q) (buildUTMmeshM tq0 mo0 1 3).1
      = [("elev", VtkVal.farr [20, 20, 20]), ("erodep", VtkVal.farr [0, 0, 0]),
         ("erodeprate", VtkVal.farr [0, 0, 0]), ("rain", VtkVal.farr [1, 1, 1]),
         ("fillFA", VtkVal.farr [1, 1, 1]), ("SL", VtkVal.farr [0, 0, 0]),
         ("fill", VtkVal.farr [0, 0, 0]), ("basin", VtkVal.iarr [7, 8, 9]),
         ("vtec", VtkVal.pynone)] := by
  refine ⟨rfl, rfl, ?_, ?_, ?_⟩
  · rw [mo0_utm_eval]
  · rw [mo0_utm_eval]
    norm_num [exportNetCDFUTM, condRead, readGridQ, readGridZ]
  · rw [mo0_utm_eval]
    norm_num [exportVTKPointData, vtkValOfOpt]


/-- Inversion for a flag-gated NetCDF variable: a successful read is
either the flag being off (empty contribution) or the flag being on with
the grid present. -/
theorem condRead_ok (flag : Bool) (a : Option (Option (List ℚ))) (name : String)
    (l : List (String × NCVar)) (h : condRead flag a name = Except.ok l) :
    (flag = false ∧ l = []) ∨
    (flag = true ∧ ∃ v, a = some (some v) ∧ readGridQ a = Except.ok v ∧
      l = [(name, NCVar.fvar v)]) := by
  cases flag with
  | false =>
    left
    refine ⟨rfl, ?_⟩
    simpa [condRead] using h.symm
  | true =>
    right
    refine ⟨rfl, ?_⟩
    match a with
    | none => exact absurd h (by simp [condRead])
    | some none => exact absurd h (by simp [condRead])
    | some (some v) =>
      refine ⟨v, rfl, rfl, ?_⟩
      simpa [condRead] using h.symm

/-- Inversion for a successful `exportNetCDF` (UTM branch): every grid
read succeeded and the variable list is the base variables, the flag-gated
contributions, and the basin labels, in that order. -/
theorem exportNetCDFUTM_ok (s : MOState) (l : List (String × NCVar))
    (h : exportNetCDFUTM s = Except.ok l) :
    ∃ e edr ed r ffa sl upl flx b,
      readGridQ s.datafelev = Except.ok e ∧
      readGridQ s.datafEDRate = Except.ok edr ∧
      readGridQ s.datafEroDep = Except.ok ed ∧
      readGridQ s.datafRain = Except.ok r ∧
      readGridQ s.dataffA = Except.ok ffa ∧
      readGridQ s.datafSed = Except.ok sl ∧
      condRead s.lookuplift s.datafUp "uplift" = Except.ok upl ∧
      condRead s.flex s.datafFlex "flex" = Except.ok flx ∧
      readGridZ s.datafBasin = Except.ok b ∧
      l = [("elevation", NCVar.fvar e), ("erodep_rate", NCVar.fvar edr),
        ("erodep", NCVar.fvar ed), ("precipitation", NCVar.fvar r),
        ("fillDischarge", NCVar.fvar ffa), ("sedimentLoad", NCVar.fvar sl)]
        ++ upl ++ flx ++ [("basinID", NCVar.ivar b)] := by
  unfold exportNetCDFUTM at h
  repeat' split at h
  any_goals exact Except.noConfusion h
  exact ⟨_, _, _, _, _, _, _, _, _, by assumption, by assumption, by assumption,
    by assumption, by assumption, by assumption, by assumption, by assumption,
    by assumption, (Except.ok.inj h).symm⟩

/-- When the uplift flag is on but the uplift data is absent, the UTM
write stage on a state whose `dataffA` is Python `None` allocates the
output grids and leaves `datafUp` as the all-zero grid — no write ever
replaces it, whether or not the stage finishes cleanly. -/
theorem utmWriteSeq_datafUp_zeros (s : MOState) (hl : s.lookuplift = true)
    (hup : s.uplift = none) (hff : s.dataffA = some none) :
    (utmWriteSeq s).1.datafUp
      = some (some (List.replicate ((s.ny * s.nx.getD 0).toNat) 0)) := by
  unfold utmWriteSeq
  simp only [datafsOf, hff, hup, hl, eq_self_iff_true, if_true]
  repeat' split
  all_goals rfl

/-- C5 amended: export availability is gated by the configuration flags
alone, not by data presence.  With a flag off, the corresponding field is
omitted from both exports; with the flag on, VTK includes the entry with
whatever `self.uplift`/`self.flexIso` holds — Python `None` when the data
was absent — and a successful NetCDF export includes an `uplift` variable
holding the current `datafUp` grid, which `buildUTMmesh` leaves as the
freshly allocated all-zero grid whenever the uplift data is absent. -/
theorem C5_amended_flag_gated_export (s : MOState) (mlog : ℚ → ℚ) :
    (s.lookuplift = false → ∀ v, ("vtec", v) ∉ exportVTKPointData mlog s) ∧
    (s.lookuplift = true → ("vtec", vtkValOfOpt s.uplift) ∈ exportVTKPointData mlog s) ∧
    (s.flex = false → ∀ v, ("flex", v) ∉ exportVTKPointData mlog s) ∧
    (s.flex = true → ("flex", vtkValOfOpt s.flexIso) ∈ exportVTKPointData mlog s) ∧
    (s.lookuplift = false → ∀ l v, exportNetCDFUTM s = Except.ok l →
      ("uplift", v) ∉ l) ∧
    (s.lookuplift = true → ∀ l, exportNetCDFUTM s = Except.ok l →
      ∃ u, readGridQ s.datafUp = Except.ok u ∧ ("uplift", NCVar.fvar u) ∈ l) ∧
    (∀ (tq : List (ℚ × ℚ) → ℕ → List (List ℚ) × List (List ℕ)) (res : ℚ) (nghb : ℕ),
      s.lookuplift = true → s.uplift = none → s.dataffA = some none →
      (buildUTMmeshM tq s res nghb).1.datafUp
        = some (some (List.replicate
            ((((utmLatAxis s.lonlat res).length : ℤ) *
              ((utmLonAxis s.lonlat res).length : ℤ)).toNat) 0))) := by
  refine ⟨?_, ?_, ?_, ?_, ?_, ?_, ?_⟩
  · intro hl v
    cases hf : s.flex <;> simp [exportVTKPointData, hl, hf]
  · intro hl
    cases hf : s.flex <;> simp [exportVTKPointData, hl, hf]
  · intro hf v
    cases hl : s.lookuplift <;> simp [exportVTKPointData, hl, hf]
  · intro hf
    cases hl : s.lookuplift <;> simp [exportVTKPointData, hl, hf]
  · intro hl l v hok
    obtain ⟨e, edr, ed, r, ffa, sl, upl, flx, b, _, _, _, _, _, _, hupl, hflx, _, rfl⟩ :=
      exportNetCDFUTM_ok s l hok
    rcases condRead_ok _ _ _ _ hupl with ⟨_, rfl⟩ | ⟨hfl, _, _, _, _⟩
    · rcases condRead_ok _ _ _ _ hflx with ⟨_, rfl⟩ | ⟨_, f, _, _, rfl⟩ <;> simp
    · rw [hl] at hfl
      exact Bool.noConfusion hfl
  · intro hl l hok
    obtain ⟨e, edr, ed, r, ffa, sl, upl, flx, b, _, _, _, _, _, _, hupl, hflx, _, rfl⟩ :=
      exportNetCDFUTM_ok s l hok
    rcases condRead_ok _ _ _ _ hupl with ⟨hfl, _⟩ | ⟨_, u, hau, hru, rfl⟩
    · rw [hl] at hfl
      exact Bool.noConfusion hfl
    · exact ⟨u, hru, by simp⟩
  · intro tq res nghb hl hup hff
    exact utmWriteSeq_datafUp_zeros (utmCacheState tq s res nghb) hl hup hff

/-- Witness for `C5_amended_flag_gated_export` at the concrete instance
`mo0` (uplift flag on, flex flag off, no uplift data): VTK includes the
`vtec` entry (holding `None`), omits `flex`, and the planar build leaves
`datafUp` as the allocated zero grid. -/
theorem C5_amended_flag_gated_export_witness :
    ("vtec", vtkValOfOpt mo0.uplift) ∈ exportVTKPointData (fun q => q) mo0 ∧
    (∀ v, ("flex", v) ∉ exportVTKPointData (fun q => q) mo0) ∧
    (buildUTMmeshM tq0 mo0 1 3).1.datafUp
      = some (some (List.replicate
          ((((utmLatAxis mo0.lonlat 1).length : ℤ) *
            ((utmLonAxis mo0.lonlat 1).length : ℤ)).toNat) 0)) := by
  obtain ⟨h1, h2, h3, h4, h5, h6, h7⟩ := C5_amended_flag_gated_export mo0 (fun q => q)
  exact ⟨h2 rfl, h3 rfl, h7 tq0 1 3 rfl rfl rfl⟩

/-- When the geographic write stage finishes without an exception, the
basin grid it stored is exactly `labels[ids[:, 0]]` — the label of the
single nearest mesh vertex per grid cell, never a weighted blend. -/
theorem lonlatWriteSeq_basin (s : MOState) (d : DatafSet)
    (h : lonlatWriteSeq s = (d, none)) :
    d.datafBasin = some (some (gridBasinOf s.labels s.ids)) := by
  simp only [lonlatWriteSeq] at h
  repeat' split at h
  all_goals injection h with h1 h2
  any_goals exact Option.noConfusion h2
  all_goals exact h1 ▸ rfl

/-- The planar variant of `lonlatWriteSeq_basin`. -/
theorem utmWriteSeq_basin (s : MOState) (d : DatafSet)
    (h : utmWriteSeq s = (d, none)) :
    d.datafBasin = some (some (gridBasinOf s.labels s.ids)) := by
  simp only [utmWriteSeq] at h
  repeat' split at h
  all_goals injection h with h1 h2
  any_goals exact Option.noConfusion h2
  all_goals exact h1 ▸ rfl

/-- The cache block never touches the basin labels. -/
theorem lonlatCacheStep_labels (tq : List (ℚ × ℚ) → ℕ → List (List ℚ) × List (List ℕ))
    (s : MOState) (res : ℚ) (nghb : ℕ) (box : Option (ℚ × ℚ × ℚ × ℚ)) :
    (lonlatCacheStep tq s res nghb box).labels = s.labels := by
  simp only [lonlatCacheStep, lonlatRebuild]
  repeat' split
  all_goals rfl

/-- C10: in both grid builders, whenever the call completes, the stored
basin grid equals `labels[ids[:, 0]]` (lines 543 and 623): each cell takes
the basin label of the first — nearest — of its k query results, with no
inverse-distance blending (and the zero-distance override block never
touches it). -/
theorem C10_basin_labels_nearest_vertex
    (tq : List (ℚ × ℚ) → ℕ → List (List ℚ) × List (List ℕ))
    (sG sU : MOState) (res resU : ℚ) (nghb nghbU : ℕ)
    (box : Option (ℚ × ℚ × ℚ × ℚ))
    (hG : (buildLonLatMeshM tq sG res nghb box).2 = none)
    (hU : (buildUTMmeshM tq sU resU nghbU).2 = none) :
    (buildLonLatMeshM tq sG res nghb box).1.datafBasin
      = some (some (gridBasinOf sG.labels (lonlatCacheStep tq sG res nghb box).ids)) ∧
    (buildUTMmeshM tq sU resU nghbU).1.datafBasin
      = some (some (gridBasinOf sU.labels (utmCacheState tq sU resU nghbU).ids)) := by
  constructor
  · have h := lonlatWriteSeq_basin (lonlatCacheStep tq sG res nghb box)
      (lonlatWriteSeq (lonlatCacheStep tq sG res nghb box)).1
      (Prod.ext_iff.mpr ⟨rfl, hG⟩)
    rw [lonlatCacheStep_labels] at h
    exact h
  · exact utmWriteSeq_basin (utmCacheState tq sU resU nghbU)
      (utmWriteSeq (utmCacheState tq sU resU nghbU)).1
      (Prod.ext_iff.mpr ⟨rfl, hU⟩)

/-- `mo0` with the two missing attributes patched in by hand (as a user
session could: `obj.flowAcc = ...; obj.datafA = None`), so that the
geographic builder can run to completion. -/
def mo1 : MOState :=
  { mo0 with flowAcc := some [1, 1, 1], datafA := some none }

/-- On the patched instance the geographic build at resolution 100 with
the default box completes without an exception. -/
theorem mo1_lonlat_ok : (buildLonLatMeshM tq0 mo1 100 3 none).2 = none := by
  rw [show mo1 = { mo0 with flowAcc := some [1, 1, 1], datafA := some none } from rfl,
    mo0_eval]
  norm_num [buildLonLatMeshM, lonlatCacheStep, lonlatRebuild, lonlatLonAxis,
    lonlatLatAxis, lonlatXyi, lonlatNx, lonlatNy, pyInt, linspaceQ, meshFlattenQ,
    tq0, gridEpsSubst, weightsOf, zeroAt, gridFieldOf, idwDot, overrideAt,
    gridBasinOf, zeroHeadRows, datafsOf, withDatafs, writeOk, lonlatWriteStage,
    lonlatWriteSeq, List.range_succ, List.range_zero, List.flatMap_cons,
    List.flatMap_nil, List.replicate]

/-- Witness for `C10_basin_labels_nearest_vertex`: the patched instance
`mo1` for the geographic build and the fresh planar instance `mo0` for the
UTM build, both completing. -/
theorem C10_basin_labels_nearest_vertex_witness :
    (buildLonLatMeshM tq0 mo1 100 3 none).1.datafBasin
      = some (some (gridBasinOf mo1.labels (lonlatCacheStep tq0 mo1 100 3 none).ids)) ∧
    (buildUTMmeshM tq0 mo0 1 3).1.datafBasin
      = some (some (gridBasinOf mo0.labels (utmCacheState tq0 mo0 1 3).ids)) :=
  C10_basin_labels_nearest_vertex tq0 mo1 mo0 100 1 3 3 none mo1_lonlat_ok
    (by rw [mo0_utm_eval])
